import Mathlib

/-!
Verification of the provider-abstraction and configuration-resolution layer of
the billy-b-assistant repository.

The Python sources are shallowly embedded: pure fragments become Lean
functions, the stateful Kobold provider becomes explicit state passing, and
every network interaction is abstracted as an explicit backend-outcome
parameter (success / non-success HTTP status / transport exception), so that
the chunk-production and state-update logic of the source is captured exactly.

Python string primitives (`str.strip`, `str.startswith`, slicing, `str.split`,
`str.join`, `str.lower`, substring membership) are modelled by structural
recursions over the character list of a `String`, so that every definition is
executable and concrete instances evaluate by `decide`.
-/

namespace Billy

/-- Model of Python `str.strip()`'s whitespace set (ASCII part). -/
def pyIsSpace (c : Char) : Bool :=
  c = ' ' || c = '\t' || c = '\n' || c = '\r' || c = '\x0b' || c = '\x0c'

/-- Model of Python `s.strip()`: remove leading and trailing whitespace. -/
def pyStrip (s : String) : String :=
  ⟨((s.data.dropWhile pyIsSpace).reverse.dropWhile pyIsSpace).reverse⟩

/-- Model of Python `s.startswith(pre)`. -/
def pyStartsWith (s pre : String) : Bool := pre.data.isPrefixOf s.data

/-- Model of Python `s[n:]` (drop the first `n` characters). -/
def pyDrop (s : String) (n : Nat) : String := ⟨s.data.drop n⟩

/-- Helper for `pySplit`: accumulate the current segment (reversed) while
scanning the character list. -/
def pySplitAux (c : Char) : List Char → List Char → List String
  | [], acc => [⟨acc.reverse⟩]
  | x :: xs, acc =>
    if x = c then ⟨acc.reverse⟩ :: pySplitAux c xs [] else pySplitAux c xs (x :: acc)

/-- Model of Python `s.split(c)` for a one-character separator. -/
def pySplit (s : String) (c : Char) : List String := pySplitAux c s.data []

/-- Model of Python `sep.join(lines)`. -/
def pyJoin (sep : String) : List String → String
  | [] => ""
  | [x] => x
  | x :: y :: xs => x ++ sep ++ pyJoin sep (y :: xs)

/-- ASCII lower-casing of one character, as Python `str.lower` does on ASCII. -/
def pyLowerChar (c : Char) : Char :=
  if 'A' ≤ c ∧ c ≤ 'Z' then Char.ofNat (c.toNat + 32) else c

/-- Model of Python `s.lower()` (ASCII range; provider names are ASCII). -/
def pyLower (s : String) : String := ⟨s.data.map pyLowerChar⟩

/-- Whether `pat` occurs as a contiguous run inside the list. -/
def hasInfixChars (pat : List Char) : List Char → Bool
  | [] => pat.isEmpty
  | x :: xs => pat.isPrefixOf (x :: xs) || hasInfixChars pat xs

/-- Model of Python `sub in s` (substring membership). -/
def pyContains (s sub : String) : Bool := hasInfixChars sub.data s.data

/-- An environment snapshot: what `os.getenv` returns for each variable name
(`none` = unset). -/
abbrev Env := String → Option String

/-- Python truthiness of an `os.getenv` result: set and non-empty. -/
def optTruthy : Option String → Bool
  | some s => s != ""
  | none => false

/-- Truthiness of `os.getenv(name)` under snapshot `env`. -/
def envTruthy (env : Env) (name : String) : Bool := optTruthy (env name)

/-- Model of Python `a or b` on optional strings. -/
def pyOr (a b : Option String) : Option String :=
  if optTruthy a then a else b

namespace CoreConfig

/-- The Ollama heuristic condition of `detect_llm_provider`
(src/core/config.py lines 186). -/
def ollama_hint (env : Env) : Bool :=
  envTruthy env "OLLAMA_HOST" || envTruthy env "OLLAMA_URL" || envTruthy env "LLM_API_URL"

/-- The Kobold heuristic condition of `detect_llm_provider`
(src/core/config.py line 190). -/
def kobold_hint (env : Env) : Bool :=
  envTruthy env "KOBOLD_URL" || envTruthy env "KOBOLD_HOST"

/-- `detect_llm_provider` from src/core/config.py lines 179-194. -/
def detect_llm_provider (env : Env) : String :=
  if envTruthy env "LLM_PROVIDER" then pyLower ((env "LLM_PROVIDER").getD "")
  else if ollama_hint env then "ollama"
  else if kobold_hint env then "kobold"
  else "openai"

/-- `get_llm_api_url` from src/core/config.py lines 237-255. -/
def get_llm_api_url (env : Env) (provider : String) : Option String :=
  if provider = "openai" then none
  else if provider = "ollama" then
    if envTruthy env "LLM_API_URL" then env "LLM_API_URL"
    else if envTruthy env "OLLAMA_URL" then env "OLLAMA_URL"
    else if envTruthy env "OLLAMA_HOST" then
      let host := (env "OLLAMA_HOST").getD ""
      if pyContains host "://" then some host else some ("http://" ++ host)
    else some "http://localhost:11434"
  else if provider = "kobold" then
    some (if envTruthy env "LLM_API_URL" then (env "LLM_API_URL").getD ""
          else (env "KOBOLD_URL").getD "http://localhost:5000")
  else none

end CoreConfig

namespace MainCfg

/-- The Ollama heuristic condition of `detect_llm_provider`
(src/main.py line 158). -/
def ollama_hint (env : Env) : Bool :=
  envTruthy env "OLLAMA_HOST" || envTruthy env "OLLAMA_URL"

/-- The Kobold heuristic condition of `detect_llm_provider`
(src/main.py line 160). -/
def kobold_hint (env : Env) : Bool := envTruthy env "KOBOLD_URL"

/-- `detect_llm_provider` from src/main.py lines 154-162. -/
def detect_llm_provider (env : Env) : String :=
  if envTruthy env "LLM_PROVIDER" then pyLower ((env "LLM_PROVIDER").getD "")
  else if ollama_hint env then "ollama"
  else if kobold_hint env then "kobold"
  else "openai"

/-- The resolved Ollama base URL of `load_config` (src/main.py lines 190-201):
`LLM_API_URL or OLLAMA_URL`, else a scheme-completed `OLLAMA_HOST`, else the
default `http://localhost:11434`. -/
def ollama_api_url (env : Env) : String :=
  let api_url := pyOr (env "LLM_API_URL") (env "OLLAMA_URL")
  let api_url :=
    if optTruthy api_url = false && envTruthy env "OLLAMA_HOST" then
      let host := (env "OLLAMA_HOST").getD ""
      some (if pyContains host "://" then host else "http://" ++ host)
    else api_url
  (pyOr api_url (some "http://localhost:11434")).getD ""

end MainCfg

namespace Factory

/-- Keys of `ProviderFactory.LLM_PROVIDERS` (src/providers/factory.py lines 19-23). -/
def LLM_PROVIDERS : List String := ["openai", "ollama", "kobold"]

/-- Keys of `ProviderFactory.VOICE_PROVIDERS` (src/providers/factory.py lines 26-30). -/
def VOICE_PROVIDERS : List String := ["openai", "chatterai", "xtt"]

/-- The typed failures of the factory: `ValueError` for unknown names (carrying
the requested name and the registered names) and `ConnectionError` for a failed
provider start-up. -/
inductive FactoryError where
  | unknownProvider (requested : String) (available : List String)
  | initFailed (provider_name : String)
deriving DecidableEq

/-- The slice of the configuration dict the factory reads:
`config.get('provider', 'openai')`. -/
structure FactoryConfig where
  provider : Option String := none
deriving DecidableEq

/-- A constructed provider instance, tagged by capability and registry key. -/
inductive Created where
  | llm (provider_name : String)
  | voice (provider_name : String)
deriving DecidableEq

/-- `ProviderFactory.create_llm_provider` (src/providers/factory.py lines 32-50).
The network-dependent result of the instance start-up call is abstracted as the
boolean `initOk`; the unknown-name failure is raised before any instance is
constructed, hence before `initOk` is consulted. -/
def create_llm_provider (config : FactoryConfig) (initOk : Bool) :
    Except FactoryError Created :=
  let provider_name := pyLower (config.provider.getD "openai")
  if (LLM_PROVIDERS.contains provider_name) = false then
    .error (.unknownProvider provider_name LLM_PROVIDERS)
  else if initOk then .ok (.llm provider_name)
  else .error (.initFailed provider_name)

/-- `ProviderFactory.create_voice_provider` (src/providers/factory.py lines 52-70). -/
def create_voice_provider (config : FactoryConfig) (initOk : Bool) :
    Except FactoryError Created :=
  let provider_name := pyLower (config.provider.getD "openai")
  if (VOICE_PROVIDERS.contains provider_name) = false then
    .error (.unknownProvider provider_name VOICE_PROVIDERS)
  else if initOk then .ok (.voice provider_name)
  else .error (.initFailed provider_name)

end Factory

/-- The uniform response-chunk dict yielded by LLM providers: `type`, and the
optional `text`, `message` and `done` entries with their `\x7bdict\x7d.get`
defaults. -/
structure ResponseChunk where
  ctype : String
  text : String := ""
  message : String := ""
  done : Bool := false
deriving DecidableEq

/-- A chunk is terminal when it is an error chunk or a completed-text chunk
with `done = true`. -/
def isTerminal (c : ResponseChunk) : Bool :=
  c.ctype == "error" || (c.ctype == "text_complete" && c.done)

namespace Kobold

/-- The persistent fields of `KoboldProvider`
(src/providers/kobold_provider.py lines 8-13) that the chunk-production logic
reads or writes; sampling parameters never influence chunks or history. -/
structure KoboldState where
  api_url : String := "http://localhost:5000"
  max_tokens : Nat := 150
  max_context : Nat := 2048
  conversation_history : List String := []
deriving DecidableEq

/-- `KoboldProvider.send_message` (src/providers/kobold_provider.py lines 45-48). -/
def send_message (st : KoboldState) (message : String) : KoboldState :=
  { st with conversation_history := st.conversation_history ++ ["User: " ++ message] }

/-- The prompt serialization of `get_response_stream`
(src/providers/kobold_provider.py line 53). -/
def buildPrompt (history : List String) : String :=
  pyJoin "\n" history ++ "\nAssistant:"

/-- The truncation while-loop of `get_response_stream`
(src/providers/kobold_provider.py lines 58-60): pop the oldest line while the
joined text exceeds the context budget and more than two lines remain. -/
def truncLoop (max_context : Nat) : List String → List String
  | [] => []
  | x :: rest =>
    if (pyJoin "\n" (x :: rest)).length > max_context ∧ (x :: rest).length > 2 then
      truncLoop max_context rest
    else x :: rest

/-- The guarded truncation step of `get_response_stream`
(src/providers/kobold_provider.py lines 56-61). -/
def truncatePrompt (max_context : Nat) (prompt : String) : String :=
  if prompt.length > max_context then
    pyJoin "\n" (truncLoop max_context (pySplit prompt '\n'))
  else prompt

/-- The possible outcomes of the POST to `/api/v1/generate`: success status
with the extracted `results[0].text` string, a non-success status with the
error body, or a transport exception. -/
inductive BackendOutcome where
  | success (text : String)
  | httpError (status : Nat) (errorText : String)
  | connError (message : String)
deriving DecidableEq

/-- What one call of `KoboldProvider.get_response_stream` produces: the prompt
sent to the backend, the yielded chunk sequence, and the provider state after
the call. -/
structure TurnResult where
  sentPrompt : String
  chunks : List ResponseChunk
  state : KoboldState
deriving DecidableEq

/-- `KoboldProvider.get_response_stream`
(src/providers/kobold_provider.py lines 50-111) as a function of the provider
state and the backend outcome. -/
def get_response_stream (st : KoboldState) (outcome : BackendOutcome) : TurnResult :=
  let prompt := buildPrompt st.conversation_history
  let prompt := truncatePrompt st.max_context prompt
  match outcome with
  | .success raw =>
      let response_text := pyStrip raw
      if response_text != "" then
        let response_text :=
          if pyStartsWith response_text "Assistant:" then pyStrip (pyDrop response_text 10)
          else response_text
        { sentPrompt := prompt
          chunks := [{ ctype := "text_complete", text := response_text, done := true }]
          state := { st with conversation_history :=
              st.conversation_history ++ ["Assistant: " ++ response_text] } }
      else
        { sentPrompt := prompt
          chunks := [{ ctype := "text_complete", text := response_text, done := true }]
          state := st }
  | .httpError status errorText =>
      { sentPrompt := prompt
        chunks := [{ ctype := "error",
                     message := "Kobold server error " ++ toString status ++ ": " ++ errorText }]
        state := st }
  | .connError msg =>
      { sentPrompt := prompt
        chunks := [{ ctype := "error",
                     message := "Connection error to Kobold server: " ++ msg }]
        state := st }

end Kobold

namespace Orchestrator

/-- The result of the streaming consumption loop: the turn was aborted by an
error chunk, or finished with the accumulated text. -/
inductive StreamOutcome where
  | errored (message : String)
  | finished (complete_text : String)
deriving DecidableEq

/-- The chunk-consumption loop of `BillyBassAssistant._handle_streaming_response`
(src/main.py lines 405-415): append `text_delta` texts to the accumulator,
abort on an `error` chunk, break on a `done` chunk. -/
def streaming_loop : List ResponseChunk → String → StreamOutcome
  | [], complete_text => .finished complete_text
  | chunk :: rest, complete_text =>
    if chunk.ctype == "text_delta" then streaming_loop rest (complete_text ++ chunk.text)
    else if chunk.ctype == "error" then .errored chunk.message
    else if chunk.done then .finished complete_text
    else streaming_loop rest complete_text

/-- `BillyBassAssistant._handle_streaming_response` (src/main.py lines 399-422):
the text handed to voice synthesis, or `none` when the turn is aborted or the
stripped accumulator is empty. -/
def handle_streaming_response (chunks : List ResponseChunk) : Option String :=
  match streaming_loop chunks "" with
  | .errored _ => none
  | .finished complete_text =>
      if pyStrip complete_text != "" then some (pyStrip complete_text) else none

/-- Modelled from the spec's words, for comparison with the source loop: the
concatenation, in emission order, of the `text` fields of all IncrementalText
chunks up to the terminal or error chunk. -/
def specDeltaConcat : List ResponseChunk → String
  | [] => ""
  | chunk :: rest =>
    if chunk.ctype == "text_delta" then chunk.text ++ specDeltaConcat rest
    else if chunk.ctype == "error" then ""
    else if chunk.done then ""
    else specDeltaConcat rest

/-- Modelled from the spec's words, for comparison with the source loop:
whether an Error chunk is encountered before the terminal chunk. -/
def specErrorAborts : List ResponseChunk → Bool
  | [] => false
  | chunk :: rest =>
    if chunk.ctype == "text_delta" then specErrorAborts rest
    else if chunk.ctype == "error" then true
    else if chunk.done then false
    else specErrorAborts rest

end Orchestrator

/-- The `\x7bvoice, speed\x7d` dict handed to `text_to_speech`; `none` models a
missing key. -/
structure VoiceParams where
  voice : Option String := none
  speed : Option Rat := none
deriving DecidableEq

namespace OpenAIVoice

/-- The fields of `OpenAIVoiceProvider` that `text_to_speech` reads. -/
structure ProviderState where
  model : String := "tts-1"
deriving DecidableEq

/-- The JSON payload built by `OpenAIVoiceProvider.text_to_speech`
(src/providers/voice/openai_voice.py lines 68-74). -/
structure TTSPayload where
  model : String
  input : String
  voice : String
  speed : Rat
  response_format : String
deriving DecidableEq

/-- `OpenAIVoiceProvider.get_supported_voices`
(src/providers/voice/openai_voice.py lines 95-109). -/
def get_supported_voices : List String :=
  ["alloy", "echo", "fable", "onyx", "nova", "shimmer",
   "ash", "ballad", "coral", "sage", "verse"]

/-- The payload construction of `OpenAIVoiceProvider.text_to_speech`:
`voice_params.get('voice', 'ash')` and `voice_params.get('speed', 1.0)`. -/
def tts_payload (st : ProviderState) (text : String) (voice_params : VoiceParams) :
    TTSPayload :=
  { model := st.model
    input := text
    voice := voice_params.voice.getD "ash"
    speed := voice_params.speed.getD 1
    response_format := "wav" }

/-- The outcome of the POST to `/audio/speech`. -/
inductive TTSOutcome where
  | success (bytes : List Nat)
  | httpError (status : Nat) (errorText : String)
  | connError (message : String)
deriving DecidableEq

/-- `OpenAIVoiceProvider.text_to_speech`
(src/providers/voice/openai_voice.py lines 56-93): returns the audio bytes on
a success status and raises otherwise (the except-clause re-raises). -/
def text_to_speech (st : ProviderState) (text : String) (voice_params : VoiceParams)
    (outcome : TTSOutcome) : Except String (List Nat) :=
  match outcome with
  | .success bytes => .ok bytes
  | .httpError status errorText =>
      .error ("OpenAI TTS error " ++ toString status ++ ": " ++ errorText)
  | .connError msg => .error msg

end OpenAIVoice

namespace ChatterVoice

/-- The fields of `ChatterAIVoiceProvider` that `text_to_speech` reads;
`model` is the configured default voice (`config.get('model', 'natural')`). -/
structure ProviderState where
  model : String := "natural"
deriving DecidableEq

/-- The JSON payload built by `ChatterAIVoiceProvider.text_to_speech`
(src/providers/voice/chatterai_voice.py lines 51-56). -/
structure TTSPayload where
  text : String
  voice : String
  speed : Rat
  format : String
deriving DecidableEq

/-- `ChatterAIVoiceProvider.get_supported_voices`
(src/providers/voice/chatterai_voice.py lines 77-86). -/
def get_supported_voices : List String :=
  ["natural", "expressive", "calm", "energetic", "professional", "friendly"]

/-- The payload construction of `ChatterAIVoiceProvider.text_to_speech`:
`voice_params.get('voice', self.model)` and `voice_params.get('speed', 1.0)`. -/
def tts_payload (st : ProviderState) (text : String) (voice_params : VoiceParams) :
    TTSPayload :=
  { text := text
    voice := voice_params.voice.getD st.model
    speed := voice_params.speed.getD 1
    format := "wav" }

end ChatterVoice

/-! ### Truncation helper lemmas -/

/-- The truncation loop only drops lines from the front: the result is a
suffix of the input, witnessed by the dropped block. -/
lemma truncLoop_exists_dropped (m : Nat) (lines : List String) :
    ∃ dropped, dropped ++ Kobold.truncLoop m lines = lines := by
  induction lines with
  | nil => exact ⟨[], rfl⟩
  | cons x rest ih =>
    simp only [Kobold.truncLoop]
    split
    · obtain ⟨d, hd⟩ := ih
      exact ⟨x :: d, by rw [List.cons_append, hd]⟩
    · exact ⟨[], rfl⟩

/-- The truncation loop never drops below the two-line floor. -/
lemma truncLoop_min_le_length (m : Nat) (lines : List String) :
    min lines.length 2 ≤ (Kobold.truncLoop m lines).length := by
  induction lines with
  | nil => simp [Kobold.truncLoop]
  | cons x rest ih =>
    simp only [Kobold.truncLoop]
    split
    · next h =>
      have h2 := h.2
      simp only [List.length_cons] at h2
      omega
    · simp only [List.length_cons]
      omega

/-- On exit the loop condition fails: the joined text is within budget or at
most two lines remain. -/
lemma truncLoop_stop (m : Nat) (lines : List String) :
    (pyJoin "\n" (Kobold.truncLoop m lines)).length ≤ m ∨
      (Kobold.truncLoop m lines).length ≤ 2 := by
  induction lines with
  | nil => right; simp [Kobold.truncLoop]
  | cons x rest ih =>
    simp only [Kobold.truncLoop]
    split
    · exact ih
    · next h =>
      rw [not_and_or] at h
      rcases h with h | h
      · left; omega
      · right; simp only [List.length_cons] at h ⊢; omega

/-- A history already within budget is left untouched by the loop. -/
lemma truncLoop_of_within_budget (m : Nat) (lines : List String)
    (h : (pyJoin "\n" lines).length ≤ m) : Kobold.truncLoop m lines = lines := by
  cases lines with
  | nil => rfl
  | cons x rest =>
    simp only [Kobold.truncLoop]
    split
    · next hc => exact absurd hc.1 (by omega)
    · rfl

/-- A history of at most two lines is left untouched by the loop. -/
lemma truncLoop_of_short (m : Nat) (lines : List String)
    (h : lines.length ≤ 2) : Kobold.truncLoop m lines = lines := by
  cases lines with
  | nil => rfl
  | cons x rest =>
    simp only [Kobold.truncLoop]
    split
    · next hc =>
      have h2 := hc.2
      simp only [List.length_cons] at h2 h
      exact absurd h2 (by omega)
    · rfl

/-- C4: the Kobold context truncation removes whole serialized-history lines
one at a time from the oldest end only — the surviving lines are a suffix of
the input, so their relative order is preserved — until the joined text is
within the context budget or only the two most recent lines remain, and it
never drops below that two-line floor; `get_response_stream` sends exactly
this truncation of the serialized conversation history. -/
theorem kobold_truncation_oldest_end_floor :
    ∀ (max_context : Nat) (lines : List String),
      (∃ dropped, dropped ++ Kobold.truncLoop max_context lines = lines) ∧
      min lines.length 2 ≤ (Kobold.truncLoop max_context lines).length ∧
      ((pyJoin "\n" (Kobold.truncLoop max_context lines)).length ≤ max_context ∨
        (Kobold.truncLoop max_context lines).length ≤ 2) ∧
      ∀ (st : Kobold.KoboldState) (o : Kobold.BackendOutcome),
        (Kobold.get_response_stream st o).sentPrompt
          = Kobold.truncatePrompt st.max_context
              (Kobold.buildPrompt st.conversation_history) := by
  intro max_context lines
  refine ⟨truncLoop_exists_dropped max_context lines,
          truncLoop_min_le_length max_context lines,
          truncLoop_stop max_context lines, ?_⟩
  intro st o
  cases o with
  | success raw =>
    simp only [Kobold.get_response_stream]
    by_cases h : (pyStrip raw != "") = true <;> simp [h]
  | httpError status errorText => rfl
  | connError msg => rfl

/-- C5: truncation is a no-op once under budget — a serialized prompt already
within the configured maximum context size is returned unchanged, a line list
whose joined text is within budget is left untouched by the loop — and for
every input the loop never reduces the history below the two-line floor. -/
theorem kobold_truncation_idempotent_under_budget :
    ∀ (max_context : Nat) (prompt : String) (lines : List String),
      (prompt.length ≤ max_context →
        Kobold.truncatePrompt max_context prompt = prompt) ∧
      ((pyJoin "\n" lines).length ≤ max_context →
        Kobold.truncLoop max_context lines = lines) ∧
      min lines.length 2 ≤ (Kobold.truncLoop max_context lines).length := by
  intro max_context prompt lines
  refine ⟨fun h => ?_, truncLoop_of_within_budget max_context lines,
          truncLoop_min_le_length max_context lines⟩
  have : ¬ prompt.length > max_context := by omega
  simp [Kobold.truncatePrompt, if_neg this]

/-- Witness for C5 at a concrete under-budget prompt and line list. -/
theorem kobold_truncation_idempotent_under_budget_witness :
    Kobold.truncatePrompt 100 "User: hi\nAssistant:" = "User: hi\nAssistant:" ∧
    Kobold.truncLoop 100 ["User: hi", "Assistant:"] = ["User: hi", "Assistant:"] ∧
    min (["User: hi", "Assistant:"] : List String).length 2
      ≤ (Kobold.truncLoop 100 ["User: hi", "Assistant:"]).length :=
  ⟨(kobold_truncation_idempotent_under_budget 100 "User: hi\nAssistant:"
      ["User: hi", "Assistant:"]).1 (by decide),
   (kobold_truncation_idempotent_under_budget 100 "User: hi\nAssistant:"
      ["User: hi", "Assistant:"]).2.1 (by decide),
   (kobold_truncation_idempotent_under_budget 100 "User: hi\nAssistant:"
      ["User: hi", "Assistant:"]).2.2⟩

/-- C1: for every provider state and every backend outcome (success status,
non-success status, transport exception), `KoboldProvider.get_response_stream`
yields exactly one chunk; that chunk is terminal — either a CompletedText
chunk with `done = true` or an Error chunk — so exactly one terminal chunk is
produced, never both kinds, never zero, and no chunk follows it. -/
theorem kobold_stream_yields_exactly_one_terminal_chunk :
    ∀ (st : Kobold.KoboldState) (o : Kobold.BackendOutcome),
      ∃ c, (Kobold.get_response_stream st o).chunks = [c] ∧
        ((c.ctype = "text_complete" ∧ c.done = true) ∨ c.ctype = "error") ∧
        isTerminal c = true := by
  intro st o
  cases o with
  | success raw =>
    simp only [Kobold.get_response_stream]
    split
    · exact ⟨_, rfl, Or.inl ⟨rfl, rfl⟩, rfl⟩
    · exact ⟨_, rfl, Or.inl ⟨rfl, rfl⟩, rfl⟩
  | httpError status errorText => exact ⟨_, rfl, Or.inr rfl, rfl⟩
  | connError msg => exact ⟨_, rfl, Or.inr rfl, rfl⟩

/-- C9: the Kobold context truncation operates only on the locally serialized
prompt of the current request: the stored `conversation_history` after
`get_response_stream` does not depend on `max_context` at all, the old history
is always a prefix of the new one, error outcomes and blank successes leave
the provider state unchanged, and only a non-blank success appends a single
Assistant entry. -/
theorem kobold_truncation_frame_history :
    ∀ (st : Kobold.KoboldState) (o : Kobold.BackendOutcome) (m : Nat),
      ((Kobold.get_response_stream { st with max_context := m } o).state.conversation_history
         = (Kobold.get_response_stream st o).state.conversation_history) ∧
      (∃ tail, (Kobold.get_response_stream st o).state.conversation_history
         = st.conversation_history ++ tail) ∧
      (∀ status errText,
         (Kobold.get_response_stream st (.httpError status errText)).state = st) ∧
      (∀ msg, (Kobold.get_response_stream st (.connError msg)).state = st) ∧
      (∀ raw, pyStrip raw = "" →
         (Kobold.get_response_stream st (.success raw)).state = st) ∧
      (∀ raw, pyStrip raw ≠ "" →
         ∃ t, (Kobold.get_response_stream st (.success raw)).state.conversation_history
           = st.conversation_history ++ ["Assistant: " ++ t]) := by
  intro st o m
  refine ⟨?_, ?_, fun status errText => rfl, fun msg => rfl, ?_, ?_⟩
  · cases o with
    | success raw =>
      simp only [Kobold.get_response_stream]
      split <;> rfl
    | httpError status errorText => rfl
    | connError msg => rfl
  · cases o with
    | success raw =>
      simp only [Kobold.get_response_stream]
      split
      · exact ⟨_, rfl⟩
      · exact ⟨[], by simp⟩
    | httpError status errorText => exact ⟨[], by simp [Kobold.get_response_stream]⟩
    | connError msg => exact ⟨[], by simp [Kobold.get_response_stream]⟩
  · intro raw h
    simp [Kobold.get_response_stream, h]
  · intro raw h
    have hb : (pyStrip raw != "") = true := by simp [bne_iff_ne, h]
    simp only [Kobold.get_response_stream, hb]
    exact ⟨_, rfl⟩

/-- Witness for C9: a server error and a blank success leave the default
state unchanged; a non-blank success appends one Assistant entry. -/
theorem kobold_truncation_frame_history_witness :
    (Kobold.get_response_stream { } (.httpError 500 "boom")).state
      = ({ } : Kobold.KoboldState) ∧
    (Kobold.get_response_stream { } (.success " \n ")).state
      = ({ } : Kobold.KoboldState) ∧
    (∃ t, (Kobold.get_response_stream { } (.success " Hello ")).state.conversation_history
      = ({ } : Kobold.KoboldState).conversation_history ++ ["Assistant: " ++ t]) := by
  refine ⟨?_, ?_, ?_⟩
  · exact (kobold_truncation_frame_history { } (.httpError 500 "boom") 0).2.2.1 500 "boom"
  · exact (kobold_truncation_frame_history { } (.connError "x") 0).2.2.2.2.1 " \n " (by decide)
  · exact (kobold_truncation_frame_history { } (.connError "x") 0).2.2.2.2.2 " Hello " (by decide)

/-- C10: when the Kobold backend returns a success status whose text strips to
empty, `get_response_stream` still yields exactly one `text_complete` chunk
with empty text and `done = true`, and appends no Assistant entry — the user
message submitted by `send_message` remains the last history entry. -/
theorem kobold_empty_response_keeps_user_last :
    ∀ (st : Kobold.KoboldState) (message raw : String), pyStrip raw = "" →
      (Kobold.get_response_stream (Kobold.send_message st message) (.success raw)).chunks
        = [{ ctype := "text_complete", text := "", message := "", done := true }] ∧
      (Kobold.get_response_stream (Kobold.send_message st message)
          (.success raw)).state.conversation_history
        = st.conversation_history ++ ["User: " ++ message] := by
  intro st message raw h
  constructor
  · simp [Kobold.get_response_stream, h]
  · simp [Kobold.get_response_stream, Kobold.send_message, h]

/-- Witness for C10 at a whitespace-only backend response. -/
theorem kobold_empty_response_keeps_user_last_witness :
    (Kobold.get_response_stream (Kobold.send_message { } "hi") (.success " \t ")).chunks
      = [{ ctype := "text_complete", text := "", message := "", done := true }] ∧
    (Kobold.get_response_stream (Kobold.send_message { } "hi")
        (.success " \t ")).state.conversation_history
      = ({ } : Kobold.KoboldState).conversation_history ++ ["User: " ++ "hi"] :=
  kobold_empty_response_keeps_user_last { } "hi" " \t " (by decide)

/-- C2: LLM-provider resolution follows the strict precedence chain, in both
`detect_llm_provider` implementations (src/core/config.py lines 179-194 and
src/main.py lines 154-162): a truthy `LLM_PROVIDER` override is returned
lower-cased unconditionally; otherwise, whenever any connection-hint variable
is present the result is a hinted provider and never the default — an Ollama
hint selects "ollama", and a Kobold hint with no Ollama hint selects
"kobold" — and with no hint at all the fixed default "openai" is returned. -/
theorem llm_provider_resolution_precedence :
    ∀ env : Env,
      (envTruthy env "LLM_PROVIDER" = true →
         CoreConfig.detect_llm_provider env = pyLower ((env "LLM_PROVIDER").getD "") ∧
         MainCfg.detect_llm_provider env = pyLower ((env "LLM_PROVIDER").getD "")) ∧
      (envTruthy env "LLM_PROVIDER" = false →
         ((CoreConfig.ollama_hint env || CoreConfig.kobold_hint env) = true →
            CoreConfig.detect_llm_provider env = "ollama" ∨
            CoreConfig.detect_llm_provider env = "kobold") ∧
         (CoreConfig.ollama_hint env = true →
            CoreConfig.detect_llm_provider env = "ollama") ∧
         (CoreConfig.ollama_hint env = false → CoreConfig.kobold_hint env = true →
            CoreConfig.detect_llm_provider env = "kobold") ∧
         (CoreConfig.ollama_hint env = false → CoreConfig.kobold_hint env = false →
            CoreConfig.detect_llm_provider env = "openai") ∧
         ((MainCfg.ollama_hint env || MainCfg.kobold_hint env) = true →
            MainCfg.detect_llm_provider env = "ollama" ∨
            MainCfg.detect_llm_provider env = "kobold") ∧
         (MainCfg.ollama_hint env = true →
            MainCfg.detect_llm_provider env = "ollama") ∧
         (MainCfg.ollama_hint env = false → MainCfg.kobold_hint env = true →
            MainCfg.detect_llm_provider env = "kobold") ∧
         (MainCfg.ollama_hint env = false → MainCfg.kobold_hint env = false →
            MainCfg.detect_llm_provider env = "openai")) := by
  intro env
  constructor
  · intro h
    constructor
    · simp [CoreConfig.detect_llm_provider, h]
    · simp [MainCfg.detect_llm_provider, h]
  · intro h
    refine ⟨?_, ?_, ?_, ?_, ?_, ?_, ?_, ?_⟩
    · intro hor
      cases hOl : CoreConfig.ollama_hint env with
      | true => exact Or.inl (by simp [CoreConfig.detect_llm_provider, h, hOl])
      | false =>
        have hk : CoreConfig.kobold_hint env = true := by simpa [hOl] using hor
        exact Or.inr (by simp [CoreConfig.detect_llm_provider, h, hOl, hk])
    · intro ho
      simp [CoreConfig.detect_llm_provider, h, ho]
    · intro ho hk
      simp [CoreConfig.detect_llm_provider, h, ho, hk]
    · intro ho hk
      simp [CoreConfig.detect_llm_provider, h, ho, hk]
    · intro hor
      cases hOl : MainCfg.ollama_hint env with
      | true => exact Or.inl (by simp [MainCfg.detect_llm_provider, h, hOl])
      | false =>
        have hk : MainCfg.kobold_hint env = true := by simpa [hOl] using hor
        exact Or.inr (by simp [MainCfg.detect_llm_provider, h, hOl, hk])
    · intro ho
      simp [MainCfg.detect_llm_provider, h, ho]
    · intro ho hk
      simp [MainCfg.detect_llm_provider, h, ho, hk]
    · intro ho hk
      simp [MainCfg.detect_llm_provider, h, ho, hk]

/-- Sample snapshot: explicit mixed-case override set alongside an Ollama
hint, to exercise override-beats-hint. -/
def envOverride : Env := fun name =>
  if name = "LLM_PROVIDER" then some "KoBold"
  else if name = "OLLAMA_HOST" then some "somehost" else none

/-- Sample snapshot: both an Ollama hint and a Kobold hint, no override. -/
def envBothHints : Env := fun name =>
  if name = "OLLAMA_URL" then some "http://o:11434"
  else if name = "KOBOLD_URL" then some "http://k:5000" else none

/-- Sample snapshot: only a Kobold hint, no override. -/
def envKoboldOnly : Env := fun name =>
  if name = "KOBOLD_HOST" then some "k:5000" else none

/-- Sample snapshot: nothing set. -/
def envNothing : Env := fun _ => none

/-- Witness for C2: the override beats the hint (lower-cased), a hint beats
the default on both resolvers, and the default wins only with nothing set. -/
theorem llm_provider_resolution_precedence_witness :
    CoreConfig.detect_llm_provider envOverride = "kobold" ∧
    CoreConfig.detect_llm_provider envBothHints = "ollama" ∧
    CoreConfig.detect_llm_provider envKoboldOnly = "kobold" ∧
    CoreConfig.detect_llm_provider envNothing = "openai" ∧
    MainCfg.detect_llm_provider envNothing = "openai" := by
  refine ⟨?_, ?_, ?_, ?_, ?_⟩
  · have h := ((llm_provider_resolution_precedence envOverride).1 (by decide)).1
    rw [h]; decide
  · exact ((llm_provider_resolution_precedence envBothHints).2 (by decide)).2.1 (by decide)
  · exact ((llm_provider_resolution_precedence envKoboldOnly).2 (by decide)).2.2.1
      (by decide) (by decide)
  · exact ((llm_provider_resolution_precedence envNothing).2 (by decide)).2.2.2.1
      (by decide) (by decide)
  · exact ((llm_provider_resolution_precedence envNothing).2 (by decide)).2.2.2.2.2.2.2
      (by decide) (by decide)

/-- A falsy `os.getenv` result is either an unset variable or one set to the
empty string. -/
lemma optTruthy_false_elim (o : Option String) (h : optTruthy o = false) :
    o = none ∨ o = some "" := by
  cases o with
  | none => exact Or.inl rfl
  | some s =>
    right
    simp only [optTruthy, bne_eq_false_iff_eq] at h
    rw [h]

/-- C6: with no provider override, `OLLAMA_HOST` set to a non-empty host, and
no other Ollama URL variable set, both resolvers select "ollama", and the
resolved base URL — `get_llm_api_url` in src/core/config.py and the
`load_config` Ollama branch in src/main.py — equals the host prefixed with
`http://` when the host contains no scheme separator, and the host unchanged
when it already contains one. -/
theorem ollama_host_heuristic_resolution :
    ∀ (env : Env) (host : String),
      envTruthy env "LLM_PROVIDER" = false →
      env "OLLAMA_HOST" = some host →
      host ≠ "" →
      envTruthy env "OLLAMA_URL" = false →
      envTruthy env "LLM_API_URL" = false →
      CoreConfig.detect_llm_provider env = "ollama" ∧
      MainCfg.detect_llm_provider env = "ollama" ∧
      CoreConfig.get_llm_api_url env "ollama"
        = some (if pyContains host "://" then host else "http://" ++ host) ∧
      MainCfg.ollama_api_url env
        = (if pyContains host "://" then host else "http://" ++ host) := by
  intro env host hp hh hne hu hl
  have hhost : envTruthy env "OLLAMA_HOST" = true := by
    simp [envTruthy, hh, optTruthy, bne_iff_ne, hne]
  have hb : ∀ s : String, s ≠ "" → (("http://" ++ s : String) != "") = true := by
    intro s _
    simp only [bne_iff_ne, ne_eq]
    intro hcontra
    have : ("http://" ++ s).data = ("" : String).data := by rw [hcontra]
    simp [String.data_append] at this
  refine ⟨?_, ?_, ?_, ?_⟩
  · simp [CoreConfig.detect_llm_provider, CoreConfig.ollama_hint, hp, hhost]
  · simp [MainCfg.detect_llm_provider, MainCfg.ollama_hint, hp, hhost]
  · simp only [CoreConfig.get_llm_api_url]
    rw [if_neg (by decide : ¬ ("ollama" : String) = "openai"), if_pos trivial]
    simp only [hl, hu, hhost, hh, Bool.false_eq_true, if_false, if_true,
      Option.getD_some]
    split <;> rfl
  · rcases optTruthy_false_elim _ hl with hL | hL <;>
      rcases optTruthy_false_elim _ hu with hO | hO <;>
      · by_cases hc : pyContains host "://" = true
        · simp [MainCfg.ollama_api_url, pyOr, hL, hO, hh, hhost, hc, optTruthy,
            bne_iff_ne, hne]
        · simp only [Bool.not_eq_true] at hc
          simp [MainCfg.ollama_api_url, pyOr, hL, hO, hh, hhost, hc, optTruthy,
            bne_iff_ne, hne, hb host hne]

/-- Sample snapshot: only `OLLAMA_HOST`, with a bare host and port. -/
def envHostBare : Env := fun name =>
  if name = "OLLAMA_HOST" then some "myhost:1234" else none

/-- Sample snapshot: only `OLLAMA_HOST`, already carrying a scheme. -/
def envHostScheme : Env := fun name =>
  if name = "OLLAMA_HOST" then some "https://myhost:1234" else none

/-- Witness for C6 at a scheme-less host and at a host with a scheme. -/
theorem ollama_host_heuristic_resolution_witness :
    (CoreConfig.detect_llm_provider envHostBare = "ollama" ∧
     CoreConfig.get_llm_api_url envHostBare "ollama" = some "http://myhost:1234" ∧
     MainCfg.ollama_api_url envHostBare = "http://myhost:1234") ∧
    (CoreConfig.get_llm_api_url envHostScheme "ollama" = some "https://myhost:1234" ∧
     MainCfg.ollama_api_url envHostScheme = "https://myhost:1234") := by
  have h1 := ollama_host_heuristic_resolution envHostBare "myhost:1234"
    (by decide) (by decide) (by decide) (by decide) (by decide)
  have h2 := ollama_host_heuristic_resolution envHostScheme "https://myhost:1234"
    (by decide) (by decide) (by decide) (by decide) (by decide)
  refine ⟨⟨h1.1, ?_, ?_⟩, ?_, ?_⟩
  · rw [h1.2.2.1]; decide
  · rw [h1.2.2.2]; decide
  · rw [h2.2.2.1]; decide
  · rw [h2.2.2.2]; decide

/-- C3: a configuration whose provider name lower-cases to a string outside
the corresponding registry makes `create_llm_provider` / `create_voice_provider`
fail with the unknown-provider error carrying the requested (lower-cased) name
and the sequence of registered names, independently of any instance start-up
outcome — so no provider is instantiated or started — while a name whose
lower-casing is registered never produces that error: registered names match
case-insensitively. -/
theorem factory_unknown_provider_rejected :
    ∀ (config : Factory.FactoryConfig) (initOk : Bool),
      ((Factory.LLM_PROVIDERS.contains (pyLower (config.provider.getD "openai"))) = false →
         Factory.create_llm_provider config initOk
           = .error (.unknownProvider (pyLower (config.provider.getD "openai"))
               Factory.LLM_PROVIDERS)) ∧
      ((Factory.VOICE_PROVIDERS.contains (pyLower (config.provider.getD "openai"))) = false →
         Factory.create_voice_provider config initOk
           = .error (.unknownProvider (pyLower (config.provider.getD "openai"))
               Factory.VOICE_PROVIDERS)) ∧
      (∀ name : String, Factory.LLM_PROVIDERS.contains (pyLower name) = true →
         Factory.create_llm_provider { provider := some name } initOk
           = if initOk then .ok (.llm (pyLower name))
             else .error (.initFailed (pyLower name))) ∧
      (∀ name : String, Factory.VOICE_PROVIDERS.contains (pyLower name) = true →
         Factory.create_voice_provider { provider := some name } initOk
           = if initOk then .ok (.voice (pyLower name))
             else .error (.initFailed (pyLower name))) := by
  intro config initOk
  refine ⟨fun h => ?_, fun h => ?_, fun name h => ?_, fun name h => ?_⟩
  · simp only [Factory.create_llm_provider]
    rw [if_pos h]
  · simp only [Factory.create_voice_provider]
    rw [if_pos h]
  · simp only [Factory.create_llm_provider, Option.getD_some]
    rw [if_neg (by rw [h]; decide)]
  · simp only [Factory.create_voice_provider, Option.getD_some]
    rw [if_neg (by rw [h]; decide)]

/-- Witness for C3: an unknown name is rejected with the registered names
listed, and registered names are accepted regardless of letter case. -/
theorem factory_unknown_provider_rejected_witness :
    Factory.create_llm_provider { provider := some "GPT5" } true
      = .error (.unknownProvider "gpt5" ["openai", "ollama", "kobold"]) ∧
    Factory.create_voice_provider { provider := some "Siri" } false
      = .error (.unknownProvider "siri" ["openai", "chatterai", "xtt"]) ∧
    Factory.create_llm_provider { provider := some "OpenAI" } true
      = .ok (.llm "openai") ∧
    Factory.create_voice_provider { provider := some "ChatterAI" } true
      = .ok (.voice "chatterai") := by
  refine ⟨?_, ?_, ?_, ?_⟩
  · have h := (factory_unknown_provider_rejected { provider := some "GPT5" } true).1
      (by decide)
    rw [h]; rfl
  · have h := (factory_unknown_provider_rejected { provider := some "Siri" } false).2.1
      (by decide)
    rw [h]; rfl
  · have h := (factory_unknown_provider_rejected { provider := some "x" } true).2.2.1
      "OpenAI" (by decide)
    rw [h]; rfl
  · have h := (factory_unknown_provider_rejected { provider := some "x" } true).2.2.2
      "ChatterAI" (by decide)
    rw [h]; rfl

/-- Counterexample to C7: "notavoice" is not among either provider's supported
voices, yet synthesis does not fall back to the configured default voice — the
unrecognized value is placed in the request payload unchanged — and when the
backend rejects it the call fails with an error instead of retrying with the
default. -/
theorem voice_unrecognized_fallback_counterexample :
    (OpenAIVoice.get_supported_voices.contains "notavoice") = false ∧
    (OpenAIVoice.tts_payload { } "hello" { voice := some "notavoice" }).voice
      = "notavoice" ∧
    ¬ ((OpenAIVoice.tts_payload { } "hello" { voice := some "notavoice" }).voice
        = "ash") ∧
    OpenAIVoice.text_to_speech { } "hello" { voice := some "notavoice" }
        (.httpError 400 "voice not recognized")
      = .error "OpenAI TTS error 400: voice not recognized" ∧
    (ChatterVoice.get_supported_voices.contains "notavoice") = false ∧
    (ChatterVoice.tts_payload { } "hello" { voice := some "notavoice" }).voice
      = "notavoice" ∧
    ¬ ((ChatterVoice.tts_payload { } "hello" { voice := some "notavoice" }).voice
        = ({ } : ChatterVoice.ProviderState).model) :=
  ⟨by decide, rfl, by decide, rfl, by decide, rfl, by decide⟩

/-- C7 as amended: `text_to_speech` substitutes the provider's default for the
`voice` / `speed` parameter only when that key is absent from `voice_params`;
a present value — recognized or not — is passed through to the backend
unchanged (OpenAI default voice "ash", ChatterAI default the configured
model). -/
theorem voice_params_key_absent_fallback :
    ∀ (st : OpenAIVoice.ProviderState) (st2 : ChatterVoice.ProviderState)
      (text : String) (p : VoiceParams),
      (p.voice = none → (OpenAIVoice.tts_payload st text p).voice = "ash") ∧
      (∀ v, p.voice = some v → (OpenAIVoice.tts_payload st text p).voice = v) ∧
      (p.speed = none → (OpenAIVoice.tts_payload st text p).speed = 1) ∧
      (∀ r, p.speed = some r → (OpenAIVoice.tts_payload st text p).speed = r) ∧
      (p.voice = none → (ChatterVoice.tts_payload st2 text p).voice = st2.model) ∧
      (∀ v, p.voice = some v → (ChatterVoice.tts_payload st2 text p).voice = v) := by
  intro st st2 text p
  refine ⟨fun h => ?_, fun v h => ?_, fun h => ?_, fun r h => ?_,
          fun h => ?_, fun v h => ?_⟩ <;>
    simp [OpenAIVoice.tts_payload, ChatterVoice.tts_payload, h]

/-- Witness for the amended C7 at concrete parameter dicts. -/
theorem voice_params_key_absent_fallback_witness :
    (OpenAIVoice.tts_payload { } "hi" { }).voice = "ash" ∧
    (OpenAIVoice.tts_payload { } "hi" { voice := some "notavoice" }).voice
      = "notavoice" ∧
    (ChatterVoice.tts_payload { } "hi" { }).voice = "natural" ∧
    (OpenAIVoice.tts_payload { } "hi" { }).speed = 1 := by
  refine ⟨?_, ?_, ?_, ?_⟩
  · exact (voice_params_key_absent_fallback { } { } "hi" { }).1 rfl
  · exact (voice_params_key_absent_fallback { } { } "hi"
      { voice := some "notavoice" }).2.1 "notavoice" rfl
  · have h := (voice_params_key_absent_fallback { } { } "hi" { }).2.2.2.2.1 rfl
    rw [h]
  · exact (voice_params_key_absent_fallback { } { } "hi" { }).2.2.1 rfl

/-- The streaming consumption loop, for any accumulator value: an error chunk
reached before the terminal chunk aborts the turn, and otherwise the loop
finishes with the accumulator extended by the in-order concatenation of the
delta texts. -/
lemma streaming_loop_characterised (chunks : List ResponseChunk) :
    ∀ acc : String,
      (Orchestrator.specErrorAborts chunks = true →
         ∃ msg, Orchestrator.streaming_loop chunks acc = .errored msg) ∧
      (Orchestrator.specErrorAborts chunks = false →
         Orchestrator.streaming_loop chunks acc
           = .finished (acc ++ Orchestrator.specDeltaConcat chunks)) := by
  induction chunks with
  | nil =>
    intro acc
    refine ⟨fun h => by simp [Orchestrator.specErrorAborts] at h, fun _ => ?_⟩
    simp [Orchestrator.streaming_loop, Orchestrator.specDeltaConcat]
  | cons c rest ih =>
    intro acc
    constructor
    · intro h
      simp only [Orchestrator.specErrorAborts] at h
      simp only [Orchestrator.streaming_loop]
      by_cases hd : (c.ctype == "text_delta") = true
      · simp only [hd, if_true] at h ⊢
        exact (ih (acc ++ c.text)).1 h
      · by_cases he : (c.ctype == "error") = true
        · simp [hd, he]
        · by_cases hdone : c.done = true
          · simp [hd, he, hdone] at h
          · simp only [hd, he, hdone, Bool.false_eq_true, if_false] at h ⊢
            exact (ih acc).1 h
    · intro h
      simp only [Orchestrator.specErrorAborts] at h
      simp only [Orchestrator.streaming_loop, Orchestrator.specDeltaConcat]
      by_cases hd : (c.ctype == "text_delta") = true
      · simp only [hd, if_true] at h ⊢
        rw [(ih (acc ++ c.text)).2 h, String.append_assoc]
      · by_cases he : (c.ctype == "error") = true
        · simp [hd, he] at h
        · by_cases hdone : c.done = true
          · simp only [hd, he, hdone, Bool.false_eq_true, if_false, if_true]
            simp
          · simp only [hd, he, hdone, Bool.false_eq_true, if_false] at h ⊢
            exact (ih acc).2 h

/-- C8: the streaming consumption loop of `_handle_streaming_response`
accumulates the `text` of every IncrementalText chunk in emission order; when
an Error chunk occurs before the terminal chunk the turn is aborted and no
text is handed to voice synthesis (partial accumulation discarded); otherwise
the synthesis input is exactly the in-order concatenation of the delta texts,
stripped of surrounding whitespace, and synthesis happens if and only if that
stripped text is non-empty. -/
theorem streaming_consumption_accumulates_deltas :
    ∀ chunks : List ResponseChunk,
      (Orchestrator.specErrorAborts chunks = true →
         Orchestrator.handle_streaming_response chunks = none) ∧
      (Orchestrator.specErrorAborts chunks = false →
         Orchestrator.handle_streaming_response chunks
           = if pyStrip (Orchestrator.specDeltaConcat chunks) != "" then
               some (pyStrip (Orchestrator.specDeltaConcat chunks))
             else none) := by
  intro chunks
  constructor
  · intro h
    obtain ⟨msg, hm⟩ := (streaming_loop_characterised chunks "").1 h
    simp [Orchestrator.handle_streaming_response, hm]
  · intro h
    have hf := (streaming_loop_characterised chunks "").2 h
    simp only [Orchestrator.handle_streaming_response, hf]
    simp

/-- Sample delta stream ending in a pure done chunk. -/
def deltaChunksSample : List ResponseChunk :=
  [{ ctype := "text_delta", text := "Why did " },
   { ctype := "text_delta", text := "the fish blush? " },
   { ctype := "done", done := true }]

/-- Sample stream aborted by an error chunk after a partial delta. -/
def errorChunksSample : List ResponseChunk :=
  [{ ctype := "text_delta", text := "Wh" },
   { ctype := "error", message := "boom" }]

/-- Witness for C8: the deltas' concatenation (stripped) is synthesized, and
an error mid-stream suppresses synthesis. -/
theorem streaming_consumption_accumulates_deltas_witness :
    Orchestrator.specErrorAborts deltaChunksSample = false ∧
    Orchestrator.handle_streaming_response deltaChunksSample
      = some "Why did the fish blush?" ∧
    Orchestrator.specErrorAborts errorChunksSample = true ∧
    Orchestrator.handle_streaming_response errorChunksSample = none := by
  refine ⟨by decide, ?_, by decide, ?_⟩
  · have h := (streaming_consumption_accumulates_deltas deltaChunksSample).2 (by decide)
    rw [h]; decide
  · exact (streaming_consumption_accumulates_deltas errorChunksSample).1 (by decide)

end Billy
